import Mathlib

/-!
Verification of the chat-component resolver/renderer of the `cobble` client
(`src/chat.rs`) and the `ServerAddress` parser of `src/main.rs`.

The resolver in the source is serde's untagged-enum deserialization of
`Component` driven by `serde_json::from_str`.  We embed the post-parse part of
that pipeline shallowly: JSON documents become the inductive `Json` below
(objects are association lists in document order; numbers are modelled as
unbounded integers, which covers every integral JSON number the claims touch),
and the derived deserializers become the ordered shape-sniffing functions
`resolveComponent` / `resolveStringComponent` / `parseFields`.  serde's
untagged deserialization discards the individual variant errors and reports a
single "data did not match any variant" failure, which we model as
`Option`-valued variant attempts collapsed into `ResolveError.noMatch`;
`serde_json`'s documented recursion limit of 128 nested containers is the
`recursionLimit` guard of `resolve`.  The `Display` implementations become the
`render*` functions and the derived `Debug` formatting (used by `Display` for
the keybind/score/selector kinds) becomes the `debug*` functions.
-/

namespace Cobble

/-- A JSON-like document, as produced by `serde_json` parsing.  Objects keep
their key/value pairs in document order. -/
inductive Json where
  | null
  | bool (b : Bool)
  | num (n : Int)
  | str (s : String)
  | arr (elems : List Json)
  | obj (fields : List (String × Json))

/-- Field lookup in a JSON object, by key. -/
def lookupField : List (String × Json) → String → Option Json
  | [], _ => none
  | (k, v) :: rest, key => if k = key then some v else lookupField rest key

theorem sizeOf_lookupField {fs : List (String × Json)} {key : String} {v : Json}
    (h : lookupField fs key = some v) : sizeOf v < sizeOf fs := by
  induction fs with
  | nil => simp [lookupField] at h
  | cons p rest ih =>
    obtain ⟨k, w⟩ := p
    by_cases hk : k = key
    · simp [lookupField, hk] at h
      subst h
      simp
      omega
    · simp [lookupField, hk] at h
      have := ih h
      simp
      omega

/-- The `ClickEvent` enum of the source; `changePage` carries Rust's `usize`. -/
inductive ClickEvent where
  | openUrl (s : String)
  | openFile (s : String)
  | runCommand (s : String)
  | twitchUserInfo (s : String)
  | suggestCommand (s : String)
  | changePage (n : Nat)
deriving DecidableEq

/-- Number of occurrences of a key in a JSON object: serde's derived
deserializers reject a document that repeats a field the deserializer
recognizes (`duplicate field` error), while repeated unrecognized keys are
simply ignored. -/
def countKey : List (String × Json) → String → Nat
  | [], _ => 0
  | (k, _) :: rest, key => (if k = key then 1 else 0) + countKey rest key

/- The typed tree of `src/chat.rs`.  Rust's `with` field is named `withArgs`
here because `with` is a Lean keyword; all other names follow the source. -/
mutual
inductive Component where
  | string (v : StringComponent)
  | translation (v : TranslationComponent)
  | keybind (v : KeybindComponent)
  | score (v : ScoreComponent)
  | selector (v : SelectorComponent)

inductive StringComponent where
  | raw (text : String)
  | mixed (text : String) (fields : ComponentFields)

inductive TranslationComponent where
  | mk (translate : String) (withArgs : List Component) (fields : ComponentFields)

inductive KeybindComponent where
  | mk (keybind : String) (fields : ComponentFields)

inductive ScoreComponent where
  | mk (score : Json) (fields : ComponentFields)

inductive SelectorComponent where
  | mk (selector : Json) (fields : ComponentFields)

inductive ComponentFields where
  | mk (bold italic underlined strikethrough obfuscated : Option Bool)
       (color insertion : Option String)
       (clickEvent : Option ClickEvent)
       (hoverEvent : Option HoverEvent)
       (extra : Option (List Component))

inductive HoverEvent where
  | showText (v : StringComponent)
  | showItem (v : StringComponent)
  | showEntity (v : StringComponent)
  | showAchievement (v : StringComponent)
end

/-- Container-nesting bound of `serde_json`'s parser (its documented recursion
limit): a document with 128 or more nested arrays/objects is rejected. -/
def recursionLimit : Nat := 128

mutual
/-- Container-nesting depth of a document (scalars have depth 0). -/
def jsonDepth : Json → Nat
  | .null => 0
  | .bool _ => 0
  | .num _ => 0
  | .str _ => 0
  | .arr xs => 1 + jsonListDepth xs
  | .obj fs => 1 + jsonFieldsDepth fs

def jsonListDepth : List Json → Nat
  | [] => 0
  | x :: rest => max (jsonDepth x) (jsonListDepth rest)

def jsonFieldsDepth : List (String × Json) → Nat
  | [] => 0
  | (_, v) :: rest => max (jsonDepth v) (jsonFieldsDepth rest)
end

/-- Failures observable from `serde_json::from_str::<Component>` on valid JSON
text: the single collapsed untagged-enum mismatch, or the parser's recursion
limit. -/
inductive ResolveError where
  | noMatch
  | depthExceeded
deriving DecidableEq

/-- An `Option<bool>` field deserialization: absent or `null` is `None`. -/
def parseOptBool : Option Json → Option (Option Bool)
  | none => some none
  | some .null => some none
  | some (.bool b) => some (some b)
  | some _ => none

/-- An `Option<String>` field deserialization: absent or `null` is `None`. -/
def parseOptString : Option Json → Option (Option String)
  | none => some none
  | some .null => some none
  | some (.str s) => some (some s)
  | some _ => none

/-- Adjacently tagged (`action`/`value`) deserialization of `ClickEvent`.
A repeated `action` or `value` key is a duplicate-field error; `change_page`
carries a `usize`, and an integer literal above `u64::MAX` is parsed by
serde_json as a float, which `usize` rejects. -/
def parseClickEvent (j : Json) : Option ClickEvent :=
  match j with
  | .obj fs =>
    if 1 < countKey fs "action" ∨ 1 < countKey fs "value" then none
    else match lookupField fs "action", lookupField fs "value" with
    | some (.str tag), some v =>
      if tag = "open_url" then match v with | .str s => some (.openUrl s) | _ => none
      else if tag = "open_file" then match v with | .str s => some (.openFile s) | _ => none
      else if tag = "run_command" then match v with | .str s => some (.runCommand s) | _ => none
      else if tag = "twitch_user_info" then match v with | .str s => some (.twitchUserInfo s) | _ => none
      else if tag = "suggest_command" then match v with | .str s => some (.suggestCommand s) | _ => none
      else if tag = "change_page" then
        match v with
        | .num n =>
          if 0 ≤ n ∧ n < 18446744073709551616 then some (.changePage n.toNat)
          else none
        | _ => none
      else none
    | _, _ => none
  | _ => none

/-- An `Option<ClickEvent>` field deserialization. -/
def parseOptClickEvent : Option Json → Option (Option ClickEvent)
  | none => some none
  | some .null => some none
  | some j => (parseClickEvent j).map some

mutual
/-- Attempt of the untagged variant `StringComponent::Mixed` on an object:
requires a single string-valued `text` key (a repeated `text` is serde's
duplicate-field error); the remaining recognized keys are the flattened
`ComponentFields`; unrecognized keys (such as `translate`) are ignored. -/
def tryMixed (fs : List (String × Json)) : Option StringComponent :=
  if 1 < countKey fs "text" then none
  else match lookupField fs "text" with
    | some (.str t) => (parseFields fs).map (fun flds => .mixed t flds)
    | _ => none
termination_by 2 * sizeOf fs + 1
decreasing_by
  all_goals simp_wf

/-- Attempt of `TranslationComponent`: requires a string `translate` key and an
array `with` key, each at most once, with the `with` elements resolved
recursively; `with` has no serde default, so a missing `with` key fails the
attempt. -/
def tryTranslation (fs : List (String × Json)) : Option TranslationComponent :=
  if 1 < countKey fs "translate" ∨ 1 < countKey fs "with" then none
  else match lookupField fs "translate" with
  | some (.str key) =>
    match h : lookupField fs "with" with
    | some (.arr xs) =>
      match resolveComponentList xs, parseFields fs with
      | some ws, some flds => some (.mk key ws flds)
      | _, _ => none
    | _ => none
  | _ => none
termination_by 2 * sizeOf fs + 1
decreasing_by
  all_goals simp_wf
  all_goals have hlk := sizeOf_lookupField h
  all_goals simp at hlk
  all_goals omega

/-- Attempt of `KeybindComponent`: requires a string `keybind` key. -/
def tryKeybind (fs : List (String × Json)) : Option KeybindComponent :=
  if 1 < countKey fs "keybind" then none
  else match lookupField fs "keybind" with
  | some (.str k) => (parseFields fs).map (fun flds => .mk k flds)
  | _ => none
termination_by 2 * sizeOf fs + 1
decreasing_by
  all_goals simp_wf

/-- Attempt of `ScoreComponent`: requires a `score` key, kept opaque. -/
def tryScore (fs : List (String × Json)) : Option ScoreComponent :=
  if 1 < countKey fs "score" then none
  else match lookupField fs "score" with
  | some v => (parseFields fs).map (fun flds => .mk v flds)
  | none => none
termination_by 2 * sizeOf fs + 1
decreasing_by
  all_goals simp_wf

/-- Attempt of `SelectorComponent`: requires a `selector` key, kept opaque. -/
def trySelector (fs : List (String × Json)) : Option SelectorComponent :=
  if 1 < countKey fs "selector" then none
  else match lookupField fs "selector" with
  | some v => (parseFields fs).map (fun flds => .mk v flds)
  | none => none
termination_by 2 * sizeOf fs + 1
decreasing_by
  all_goals simp_wf

/-- The flattened `ComponentFields` record, read from the host object's keys:
a repeated recognized key or a recognized key with the wrong value type fails
the record (and hence the host variant); unrecognized keys are ignored, even
repeated ones. -/
def parseFields (fs : List (String × Json)) : Option ComponentFields :=
  if 1 < countKey fs "bold" ∨ 1 < countKey fs "italic" ∨
      1 < countKey fs "underlined" ∨ 1 < countKey fs "strikethrough" ∨
      1 < countKey fs "obfuscated" ∨ 1 < countKey fs "color" ∨
      1 < countKey fs "insertion" ∨ 1 < countKey fs "clickEvent" ∨
      1 < countKey fs "hoverEvent" ∨ 1 < countKey fs "extra" then none
  else do
  let bold ← parseOptBool (lookupField fs "bold")
  let italic ← parseOptBool (lookupField fs "italic")
  let underlined ← parseOptBool (lookupField fs "underlined")
  let strikethrough ← parseOptBool (lookupField fs "strikethrough")
  let obfuscated ← parseOptBool (lookupField fs "obfuscated")
  let color ← parseOptString (lookupField fs "color")
  let insertion ← parseOptString (lookupField fs "insertion")
  let clickEvent ← parseOptClickEvent (lookupField fs "clickEvent")
  let hoverEvent ← (match h : lookupField fs "hoverEvent" with
    | none => some none
    | some v => parseHoverEventVal v)
  let extra ← (match h : lookupField fs "extra" with
    | none => some none
    | some v => parseExtraVal v)
  some (.mk bold italic underlined strikethrough obfuscated color insertion
    clickEvent hoverEvent extra)
termination_by 2 * sizeOf fs
decreasing_by
  all_goals simp_wf
  all_goals have hlk := sizeOf_lookupField h
  all_goals omega

/-- A present `hoverEvent` value: `null` is `None`; otherwise an adjacently
tagged `HoverEvent` whose payload is a nested `StringComponent`; a repeated
`action` or `value` key is a duplicate-field error. -/
def parseHoverEventVal : Json → Option (Option HoverEvent)
  | .null => some none
  | .obj efs =>
    if 1 < countKey efs "action" ∨ 1 < countKey efs "value" then none
    else (match lookupField efs "action" with
    | some (.str tag) =>
      match h : lookupField efs "value" with
      | some w =>
        (match resolveStringComponent w with
        | some sc =>
          if tag = "show_text" then some (some (.showText sc))
          else if tag = "show_item" then some (some (.showItem sc))
          else if tag = "show_entity" then some (some (.showEntity sc))
          else if tag = "show_achievement" then some (some (.showAchievement sc))
          else none
        | none => none)
      | none => none
    | _ => none)
  | _ => none
termination_by v => 2 * sizeOf v + 1
decreasing_by
  all_goals simp_wf
  all_goals have hlk := sizeOf_lookupField h
  all_goals omega

/-- A present `extra` value: `null` is `None`; otherwise an array whose
elements resolve recursively as full components. -/
def parseExtraVal : Json → Option (Option (List Component))
  | .null => some none
  | .arr xs => (resolveComponentList xs).map some
  | _ => none
termination_by v => 2 * sizeOf v + 1
decreasing_by
  all_goals simp_wf

/-- Untagged `StringComponent`: `Raw` on a bare string, else `Mixed` on an
object with a string `text` key. -/
def resolveStringComponent : Json → Option StringComponent
  | .str s => some (.raw s)
  | .obj fs => tryMixed fs
  | _ => none
termination_by j => 2 * sizeOf j + 1
decreasing_by
  all_goals simp_wf

def resolveComponentList : List Json → Option (List Component)
  | [] => some []
  | x :: rest => do
    let c ← resolveComponent x
    let cs ← resolveComponentList rest
    some (c :: cs)
termination_by xs => 2 * sizeOf xs + 1
decreasing_by
  all_goals simp_wf
  all_goals omega

/-- Untagged `Component`: the variants are attempted in declared order
`String`, `Translation`, `Keybind`, `Score`, `Selector`; the first success
wins, and every failure is collapsed into one mismatch.  (On a bare string the
`String` attempt is `StringComponent::Raw`; on an object it is the `Mixed`
attempt, matching untagged `StringComponent`.) -/
def resolveComponent : Json → Option Component
  | .str s => some (.string (.raw s))
  | .obj fs =>
    ((tryMixed fs).map Component.string).orElse fun _ =>
    ((tryTranslation fs).map Component.translation).orElse fun _ =>
    ((tryKeybind fs).map Component.keybind).orElse fun _ =>
    ((tryScore fs).map Component.score).orElse fun _ =>
    ((trySelector fs).map Component.selector)
  | _ => none
termination_by j => 2 * sizeOf j + 2
decreasing_by
  all_goals simp_wf
  all_goals omega
end

/-- The observable outcome of `serde_json::from_str::<Component>` on a
syntactically valid document: the parser's recursion limit first, then the
untagged resolution. -/
def resolve (j : Json) : Except ResolveError Component :=
  if recursionLimit ≤ jsonDepth j then .error .depthExceeded
  else
    match resolveComponent j with
    | some c => .ok c
    | none => .error .noMatch

/-- All-`None` attribute record: Rust's `ComponentFields::default()`. -/
def ComponentFields.default : ComponentFields :=
  .mk none none none none none none none none none none

/-- Projection of the `extra` children out of an attribute record. -/
def ComponentFields.extra : ComponentFields → Option (List Component)
  | .mk _ _ _ _ _ _ _ _ _ ex => ex

/-- Decimal digits accumulator of Rust's integer `Display`. -/
def natDecDigits (n : Nat) (acc : List Char) : List Char :=
  if h : n = 0 then acc
  else natDecDigits (n / 10) (Char.ofNat (48 + n % 10) :: acc)
termination_by n
decreasing_by exact Nat.div_lt_self (Nat.pos_of_ne_zero h) (by omega)

/-- Decimal rendering of a natural number, as Rust's `Display` prints `u16`
and `usize` values. -/
def natToDecimal (n : Nat) : String :=
  if n = 0 then "0" else String.mk (natDecDigits n [])

/-- Decimal rendering of an integer. -/
def intToDecimal (n : Int) : String :=
  if n < 0 then "-" ++ natToDecimal (-n).toNat else natToDecimal n.toNat

/-- Lowercase hexadecimal digit. -/
def hexDigitChar (n : Nat) : Char :=
  if n < 10 then Char.ofNat (48 + n) else Char.ofNat (87 + n)

/-- Rust's `char::escape_debug` escaping used by `{:?}` on strings. -/
def escapeDebugChar (c : Char) : String :=
  if c = '"' then "\\\""
  else if c = '\\' then "\\\\"
  else if c = '\n' then "\\n"
  else if c = '\r' then "\\r"
  else if c = '\t' then "\\t"
  else if c.toNat = 0 then "\\0"
  else if c.toNat < 32 then
    "\\u\x7b" ++ (if c.toNat < 16 then String.mk [hexDigitChar c.toNat]
      else String.mk [hexDigitChar (c.toNat / 16), hexDigitChar (c.toNat % 16)]) ++ "\x7d"
  else String.mk [c]

/-- Rust's `{:?}` rendering of a string: quoted with `escape_debug`. -/
def debugString (s : String) : String :=
  "\"" ++ String.join (s.data.map escapeDebugChar) ++ "\""

/-- Rust's `Debug` for `bool`. -/
def debugRustBool : Bool → String
  | true => "true"
  | false => "false"

def debugOptBool : Option Bool → String
  | none => "None"
  | some b => "Some(" ++ debugRustBool b ++ ")"

def debugOptString : Option String → String
  | none => "None"
  | some s => "Some(" ++ debugString s ++ ")"

/-- Derived `Debug` for `ClickEvent`. -/
def debugClickEvent : ClickEvent → String
  | .openUrl s => "OpenUrl(" ++ debugString s ++ ")"
  | .openFile s => "OpenFile(" ++ debugString s ++ ")"
  | .runCommand s => "RunCommand(" ++ debugString s ++ ")"
  | .twitchUserInfo s => "TwitchUserInfo(" ++ debugString s ++ ")"
  | .suggestCommand s => "SuggestCommand(" ++ debugString s ++ ")"
  | .changePage n => "ChangePage(" ++ natToDecimal n ++ ")"

def debugOptClickEvent : Option ClickEvent → String
  | none => "None"
  | some e => "Some(" ++ debugClickEvent e ++ ")"

mutual
/-- The `Debug` of `serde_json::Value`, used for the opaque score/selector fields. -/
def debugJson : Json → String
  | .null => "Null"
  | .bool b => "Bool(" ++ debugRustBool b ++ ")"
  | .num n => "Number(" ++ intToDecimal n ++ ")"
  | .str s => "String(" ++ debugString s ++ ")"
  | .arr xs => "Array([" ++ debugJsonListInner xs ++ "])"
  | .obj fs => "Object(\x7b" ++ debugJsonObjInner fs ++ "\x7d)"

def debugJsonListInner : List Json → String
  | [] => ""
  | [x] => debugJson x
  | x :: rest => debugJson x ++ ", " ++ debugJsonListInner rest

def debugJsonObjInner : List (String × Json) → String
  | [] => ""
  | [(k, v)] => debugString k ++ ": " ++ debugJson v
  | (k, v) :: rest => debugString k ++ ": " ++ debugJson v ++ ", " ++ debugJsonObjInner rest
end

mutual
/-- Derived `Debug` for `Component`: the variant name wrapping the payload. -/
def debugComponent : Component → String
  | .string v => "String(" ++ debugStringComponent v ++ ")"
  | .translation v => "Translation(" ++ debugTranslationComponent v ++ ")"
  | .keybind v => "Keybind(" ++ debugKeybindComponent v ++ ")"
  | .score v => "Score(" ++ debugScoreComponent v ++ ")"
  | .selector v => "Selector(" ++ debugSelectorComponent v ++ ")"
termination_by c => 2 * sizeOf c
decreasing_by
  all_goals simp_wf

def debugStringComponent : StringComponent → String
  | .raw t => "Raw(" ++ debugString t ++ ")"
  | .mixed t flds =>
    "Mixed \x7b text: " ++ debugString t ++ ", fields: " ++
      debugComponentFields flds ++ " \x7d"
termination_by s => 2 * sizeOf s
decreasing_by
  all_goals simp_wf

def debugTranslationComponent : TranslationComponent → String
  | .mk t ws flds =>
    "TranslationComponent \x7b translate: " ++ debugString t ++ ", with: " ++
      debugComponentList ws ++ ", fields: " ++ debugComponentFields flds ++ " \x7d"
termination_by t => 2 * sizeOf t
decreasing_by
  all_goals simp_wf
  all_goals omega

def debugKeybindComponent : KeybindComponent → String
  | .mk k flds =>
    "KeybindComponent \x7b keybind: " ++ debugString k ++ ", fields: " ++
      debugComponentFields flds ++ " \x7d"
termination_by k => 2 * sizeOf k
decreasing_by
  all_goals simp_wf

def debugScoreComponent : ScoreComponent → String
  | .mk v flds =>
    "ScoreComponent \x7b score: " ++ debugJson v ++ ", fields: " ++
      debugComponentFields flds ++ " \x7d"
termination_by v => 2 * sizeOf v
decreasing_by
  all_goals simp_wf

def debugSelectorComponent : SelectorComponent → String
  | .mk v flds =>
    "SelectorComponent \x7b selector: " ++ debugJson v ++ ", fields: " ++
      debugComponentFields flds ++ " \x7d"
termination_by v => 2 * sizeOf v
decreasing_by
  all_goals simp_wf

def debugComponentFields : ComponentFields → String
  | .mk b i u s o c ins ce he ex =>
    "ComponentFields \x7b bold: " ++ debugOptBool b ++ ", italic: " ++
      debugOptBool i ++ ", underlined: " ++ debugOptBool u ++
      ", strikethrough: " ++ debugOptBool s ++ ", obfuscated: " ++
      debugOptBool o ++ ", color: " ++ debugOptString c ++ ", insertion: " ++
      debugOptString ins ++ ", click_event: " ++ debugOptClickEvent ce ++
      ", hover_event: " ++ debugOptHoverEvent he ++ ", extra: " ++
      debugOptComponentList ex ++ " \x7d"
termination_by f => 2 * sizeOf f
decreasing_by
  all_goals simp_wf
  all_goals omega

def debugOptHoverEvent : Option HoverEvent → String
  | none => "None"
  | some hov => "Some(" ++ debugHoverEvent hov ++ ")"
termination_by o => 2 * sizeOf o
decreasing_by
  all_goals simp_wf

def debugHoverEvent : HoverEvent → String
  | .showText sc => "ShowText(" ++ debugStringComponent sc ++ ")"
  | .showItem sc => "ShowItem(" ++ debugStringComponent sc ++ ")"
  | .showEntity sc => "ShowEntity(" ++ debugStringComponent sc ++ ")"
  | .showAchievement sc => "ShowAchievement(" ++ debugStringComponent sc ++ ")"
termination_by e => 2 * sizeOf e
decreasing_by
  all_goals simp_wf

def debugOptComponentList : Option (List Component) → String
  | none => "None"
  | some l => "Some(" ++ debugComponentList l ++ ")"
termination_by o => 2 * sizeOf o
decreasing_by
  all_goals simp_wf
  all_goals omega

def debugComponentList (l : List Component) : String :=
  "[" ++ debugComponentListInner l ++ "]"
termination_by 2 * sizeOf l + 1
decreasing_by
  all_goals simp_wf

def debugComponentListInner : List Component → String
  | [] => ""
  | [c] => debugComponent c
  | c :: rest => debugComponent c ++ ", " ++ debugComponentListInner rest
termination_by l => 2 * sizeOf l
decreasing_by
  all_goals simp_wf
  all_goals omega
end

mutual
/-- The `Display` of `Component` (`src/chat.rs` lines 16-26): `String` and
`Translation` delegate to their `Display`, the other three kinds print their
derived `Debug` dump. -/
def renderComponent : Component → String
  | .string v => renderStringComponent v
  | .translation v => renderTranslationComponent v
  | .keybind v => debugKeybindComponent v
  | .score v => debugScoreComponent v
  | .selector v => debugSelectorComponent v
termination_by c => sizeOf c
decreasing_by
  all_goals simp_wf

/-- The `Display` of `StringComponent`: the text, then each `extra` child in stored
order (nothing when `extra` is absent). -/
def renderStringComponent : StringComponent → String
  | .raw text => text
  | .mixed text (.mk _ _ _ _ _ _ _ _ _ ex) => text ++ renderExtrasOpt ex
termination_by s => sizeOf s
decreasing_by
  all_goals simp_wf
  all_goals omega

/-- The `Display` of `TranslationComponent`: the bracketed key, a space-prefixed
rendering of each `with` argument in order, then the `extra` children. -/
def renderTranslationComponent : TranslationComponent → String
  | .mk translate ws (.mk _ _ _ _ _ _ _ _ _ ex) =>
    "[" ++ translate ++ "]" ++ renderWithArgs ws ++ renderExtrasOpt ex
termination_by t => sizeOf t
decreasing_by
  all_goals simp_wf
  all_goals omega

/-- The `for component in &self.with` loop: a space before every argument. -/
def renderWithArgs : List Component → String
  | [] => ""
  | c :: rest => " " ++ renderComponent c ++ renderWithArgs rest
termination_by l => sizeOf l
decreasing_by
  all_goals simp_wf
  all_goals omega

/-- The `for extra in extra` loop: children concatenated in stored order. -/
def renderExtras : List Component → String
  | [] => ""
  | c :: rest => renderComponent c ++ renderExtras rest
termination_by l => sizeOf l
decreasing_by
  all_goals simp_wf
  all_goals omega

/-- The `if let Some(extra) = &fields.extra` guard. -/
def renderExtrasOpt : Option (List Component) → String
  | none => ""
  | some extra => renderExtras extra
termination_by o => sizeOf o
decreasing_by
  all_goals simp_wf
end

/-- The `ServerAddress` structure of `src/main.rs`; the port is Rust's `u16`. -/
structure ServerAddress where
  host : String
  port : Nat
deriving DecidableEq

/-- The `std::num::ParseIntError` kinds reachable from `u16::from_str`. -/
inductive ParseIntError where
  | empty
  | invalidDigit
  | posOverflow
deriving DecidableEq

/-- The digit loop of `u16::from_str_radix(s, 10)`: checked `u16` arithmetic
overflows past 65535, a non-digit character is rejected. -/
def parseU16Digits (acc : Nat) : List Char → Except ParseIntError Nat
  | [] => .ok acc
  | c :: rest =>
    if 48 ≤ c.toNat ∧ c.toNat ≤ 57 then
      let acc2 := acc * 10 + (c.toNat - 48)
      if 65535 < acc2 then .error .posOverflow
      else parseU16Digits acc2 rest
    else .error .invalidDigit

/-- Rust's `u16::from_str`: empty input is `Empty`; one leading `+` is allowed but
needs at least one digit after it. -/
def parseU16 (s : String) : Except ParseIntError Nat :=
  match s.data with
  | [] => .error .empty
  | c :: rest =>
    if c = '+' then
      match rest with
      | [] => .error .invalidDigit
      | _ => parseU16Digits 0 rest
    else parseU16Digits 0 (c :: rest)

/-- Split a character list at its last `':'` (the `rfind(':')` plus
`rsplitn(2, ':')` of the source): `some (before, after)` when a colon is
present, `none` otherwise. -/
def splitLastColon : List Char → Option (List Char × List Char)
  | [] => none
  | c :: rest =>
    match splitLastColon rest with
    | some (before, after) => some (c :: before, after)
    | none => if c = ':' then some ([], rest) else none

/-- The `FromStr` of `ServerAddress`: with a colon present, the text after the
last colon is the port and the text before it the host; with no colon the
whole input is the host and the port defaults to 25565. -/
def ServerAddress.fromStr (s : String) : Except ParseIntError ServerAddress :=
  match splitLastColon s.data with
  | some (before, after) =>
    (parseU16 (String.mk after)).map (fun port => ⟨String.mk before, port⟩)
  | none => .ok ⟨s, 25565⟩

/-- The `Display` of `ServerAddress`: `host:port`. -/
def ServerAddress.display (a : ServerAddress) : String :=
  a.host ++ ":" ++ natToDecimal a.port

/-- A document with `n` levels of `extra` nesting (two container levels per
step), for exercising the recursion limit. -/
def deepNest : Nat → Json
  | 0 => Json.str "x"
  | n + 1 => Json.obj [("text", Json.str "t"), ("extra", Json.arr [deepNest n])]

/-- The `with` argument object of the §6 example. -/
def usernameDoc : Json :=
  Json.obj [
    ("insertion", Json.str "Username"),
    ("clickEvent", Json.obj [("action", Json.str "suggest_command"),
      ("value", Json.str "/tell Username ")]),
    ("hoverEvent", Json.obj [("action", Json.str "show_entity"),
      ("value", Json.obj [("text", Json.str "Hover")])]),
    ("text", Json.str "Username")]

/-- The nested translation example document of the specification's §6 (also
the `player_join` test of `src/chat.rs`). -/
def playerJoinDoc : Json :=
  Json.obj [
    ("color", Json.str "yellow"),
    ("translate", Json.str "multiplayer.player.joined"),
    ("with", Json.arr [usernameDoc])]

/-- The attribute record of the resolved `with` argument. -/
def usernameFields : ComponentFields :=
  .mk none none none none none none (some "Username")
    (some (.suggestCommand "/tell Username "))
    (some (.showEntity (.mixed "Hover" ComponentFields.default)))
    none

/-- The tree the §6 example resolves to. -/
def playerJoinTree : Component :=
  .translation (.mk "multiplayer.player.joined"
    [.string (.mixed "Username" usernameFields)]
    (.mk none none none none none (some "yellow") none none none none))

mutual
/-- Components differing at most in the style/interactivity attribute fields
(every `ComponentFields` entry except `extra`) of their Mixed-string and
Translation nodes.  Keybind/score/selector nodes must coincide exactly, since
rendering dumps their entire structure. -/
inductive AttrEquivC : Component → Component → Prop where
  | string {a b : StringComponent} : AttrEquivS a b →
      AttrEquivC (.string a) (.string b)
  | translation {k : String} {ws ws2 : List Component}
      {f f2 : ComponentFields} : AttrEquivL ws ws2 → AttrEquivF f f2 →
      AttrEquivC (.translation (.mk k ws f)) (.translation (.mk k ws2 f2))
  | keybind {v : KeybindComponent} : AttrEquivC (.keybind v) (.keybind v)
  | score {v : ScoreComponent} : AttrEquivC (.score v) (.score v)
  | selector {v : SelectorComponent} : AttrEquivC (.selector v) (.selector v)

inductive AttrEquivS : StringComponent → StringComponent → Prop where
  | raw {t : String} : AttrEquivS (.raw t) (.raw t)
  | mixed {t : String} {f f2 : ComponentFields} : AttrEquivF f f2 →
      AttrEquivS (.mixed t f) (.mixed t f2)

inductive AttrEquivF : ComponentFields → ComponentFields → Prop where
  | mk {b i u s o : Option Bool} {c ins : Option String}
      {ce : Option ClickEvent} {he : Option HoverEvent}
      {b2 i2 u2 s2 o2 : Option Bool} {c2 ins2 : Option String}
      {ce2 : Option ClickEvent} {he2 : Option HoverEvent}
      {ex ex2 : Option (List Component)} : AttrEquivOL ex ex2 →
      AttrEquivF (.mk b i u s o c ins ce he ex)
        (.mk b2 i2 u2 s2 o2 c2 ins2 ce2 he2 ex2)

inductive AttrEquivOL : Option (List Component) → Option (List Component) →
    Prop where
  | none : AttrEquivOL none none
  | some {l l2 : List Component} : AttrEquivL l l2 →
      AttrEquivOL (some l) (some l2)

inductive AttrEquivL : List Component → List Component → Prop where
  | nil : AttrEquivL [] []
  | cons {a b : Component} {l l2 : List Component} : AttrEquivC a b →
      AttrEquivL l l2 → AttrEquivL (a :: l) (b :: l2)
end


/-- An attribute record that carries only `extra` children. -/
def extrasOnly (es : List Component) : ComponentFields :=
  .mk none none none none none none none none none (some es)

/-- The plain decimal value of a digit list, the reference for the checked
loop. -/
def digitsVal (a : Nat) (cs : List Char) : Nat :=
  cs.foldl (fun x c => x * 10 + (c.toNat - 48)) a


/-! ### General lemmas about the resolver -/

theorem resolve_below_limit {j : Json} (hd : jsonDepth j < recursionLimit) :
    resolve j = match resolveComponent j with
      | some c => .ok c
      | none => .error .noMatch := by
  simp [resolve, Nat.not_le.mpr hd]

theorem tryMixed_none {fs : List (String × Json)}
    (h : parseFields fs = none) : tryMixed fs = none := by
  by_cases hdup : 1 < countKey fs "text"
  · simp [tryMixed, hdup]
  · cases htext : lookupField fs "text" with
    | none => simp [tryMixed, hdup, htext]
    | some v => cases v <;> simp [tryMixed, hdup, htext, h]

theorem tryTranslation_none {fs : List (String × Json)}
    (h : parseFields fs = none) : tryTranslation fs = none := by
  by_cases hdup : 1 < countKey fs "translate" ∨ 1 < countKey fs "with"
  · simp [tryTranslation, hdup]
  · cases htr : lookupField fs "translate" with
    | none => simp [tryTranslation, hdup, htr]
    | some v =>
      cases v <;> simp [tryTranslation, hdup, htr]
      next k =>
        cases hw : lookupField fs "with" with
        | none => simp
        | some w =>
          cases w <;> simp
          next xs => cases resolveComponentList xs <;> simp [h]

theorem tryKeybind_none {fs : List (String × Json)}
    (h : parseFields fs = none) : tryKeybind fs = none := by
  by_cases hdup : 1 < countKey fs "keybind"
  · simp [tryKeybind, hdup]
  · cases hk : lookupField fs "keybind" with
    | none => simp [tryKeybind, hdup, hk]
    | some v => cases v <;> simp [tryKeybind, hdup, hk, h]

theorem tryScore_none {fs : List (String × Json)}
    (h : parseFields fs = none) : tryScore fs = none := by
  by_cases hdup : 1 < countKey fs "score"
  · simp [tryScore, hdup]
  · cases hk : lookupField fs "score" with
    | none => simp [tryScore, hdup, hk]
    | some v => simp [tryScore, hdup, hk, h]

theorem trySelector_none {fs : List (String × Json)}
    (h : parseFields fs = none) : trySelector fs = none := by
  by_cases hdup : 1 < countKey fs "selector"
  · simp [trySelector, hdup]
  · cases hk : lookupField fs "selector" with
    | none => simp [trySelector, hdup, hk]
    | some v => simp [trySelector, hdup, hk, h]

theorem tryMixed_none_of_absent {fs : List (String × Json)}
    (htext : lookupField fs "text" = none) : tryMixed fs = none := by
  by_cases hdup : 1 < countKey fs "text" <;> simp [tryMixed, hdup, htext]

theorem tryTranslation_none_of_no_arr {fs : List (String × Json)}
    (h : ∀ xs, lookupField fs "with" ≠ some (Json.arr xs)) :
    tryTranslation fs = none := by
  by_cases hdup : 1 < countKey fs "translate" ∨ 1 < countKey fs "with"
  · simp [tryTranslation, hdup]
  · cases htr : lookupField fs "translate" with
    | none => simp [tryTranslation, hdup, htr]
    | some v =>
      cases v <;> simp [tryTranslation, hdup, htr]

theorem tryKeybind_none_of_absent {fs : List (String × Json)}
    (hk : lookupField fs "keybind" = none) : tryKeybind fs = none := by
  by_cases hdup : 1 < countKey fs "keybind" <;> simp [tryKeybind, hdup, hk]

theorem tryScore_none_of_absent {fs : List (String × Json)}
    (hk : lookupField fs "score" = none) : tryScore fs = none := by
  by_cases hdup : 1 < countKey fs "score" <;> simp [tryScore, hdup, hk]

theorem trySelector_none_of_absent {fs : List (String × Json)}
    (hk : lookupField fs "selector" = none) : trySelector fs = none := by
  by_cases hdup : 1 < countKey fs "selector" <;> simp [trySelector, hdup, hk]

theorem resolveComponent_obj_none {fs : List (String × Json)}
    (h : parseFields fs = none) : resolveComponent (Json.obj fs) = none := by
  simp [resolveComponent, tryMixed_none h, tryTranslation_none h,
    tryKeybind_none h, tryScore_none h, trySelector_none h]

theorem tryTranslation_some {fs : List (String × Json)} {key : String}
    {xs : List Json} {ws : List Component} {flds : ComponentFields}
    (hd1 : countKey fs "translate" ≤ 1) (hd2 : countKey fs "with" ≤ 1)
    (htr : lookupField fs "translate" = some (Json.str key))
    (hw : lookupField fs "with" = some (Json.arr xs))
    (hws : resolveComponentList xs = some ws)
    (hf : parseFields fs = some flds) :
    tryTranslation fs = some (.mk key ws flds) := by
  simp [tryTranslation, Nat.not_lt.mpr hd1, Nat.not_lt.mpr hd2, htr, hf]
  split
  case h_1 xs2 heq =>
    obtain rfl : xs2 = xs := by
      have h2 := Option.some.inj (hw.symm.trans heq)
      exact (Json.arr.inj h2).symm
    simp [hws]
  case h_2 hne => exact absurd hw (hne xs)

/-- Claim C1, counterexample: an object carrying `text` (string) and
`translate` with a malformed attribute key (`bold` holding a number) resolves
to an error, not to a `StringNode::Mixed` component; and an object repeating
its `text` key next to a well-formed Translation shape resolves to a
`TranslationNode` (the Mixed attempt dies on serde's duplicate-field error and
the Translation attempt, to which `text` is merely an ignored key, then
succeeds). -/
theorem c1_counterexample :
    resolve (Json.obj [("text", Json.str "a"), ("translate", Json.str "b"),
        ("bold", Json.num 5)]) = .error .noMatch ∧
    resolve (Json.obj [("text", Json.str "a"), ("text", Json.str "a"),
        ("translate", Json.str "b"), ("with", Json.arr [])]) =
      .ok (.translation (.mk "b" []
        (.mk none none none none none none none none none none))) := by
  constructor
  · simp [resolve, resolveComponent, jsonDepth, jsonFieldsDepth,
      recursionLimit, countKey, tryMixed, tryTranslation, tryKeybind,
      tryScore, trySelector, parseFields, lookupField, parseOptBool,
      parseOptString, parseOptClickEvent]
  · have htr : tryTranslation [("text", Json.str "a"), ("text", Json.str "a"),
        ("translate", Json.str "b"), ("with", Json.arr [])] =
        some (.mk "b" []
          (.mk none none none none none none none none none none)) :=
      tryTranslation_some (by simp [countKey]) (by simp [countKey])
        (by simp [lookupField]) (by simp [lookupField])
        (show resolveComponentList [] = some [] by simp [resolveComponentList])
        (show parseFields [("text", Json.str "a"), ("text", Json.str "a"),
            ("translate", Json.str "b"), ("with", Json.arr [])] =
          some (.mk none none none none none none none none none none) by
          simp [parseFields, countKey, lookupField, parseOptBool,
            parseOptString, parseOptClickEvent])
    simp [resolve, resolveComponent, jsonDepth, jsonListDepth,
      jsonFieldsDepth, recursionLimit, countKey, tryMixed, htr]

/-- Claim C1 (amended): for an object within the depth bound carrying exactly
one `text` key, string-valued, and a `translate` key, resolution yields the
String Mixed node whenever the attribute fields are well formed (the
`translate` key being ignored), fails otherwise, and in no case yields a
Translation node.  The uniqueness of `text` is essential: a repeated `text`
key fails the Mixed attempt with serde's duplicate-field error and a
Translation shape can then win (see the counterexample). -/
theorem c1_amended (fs : List (String × Json)) (t : String)
    (hdepth : jsonDepth (Json.obj fs) < recursionLimit)
    (hcount : countKey fs "text" = 1)
    (htext : lookupField fs "text" = some (Json.str t))
    (_htr : (lookupField fs "translate").isSome) :
    (∀ flds, parseFields fs = some flds →
      resolve (Json.obj fs) = .ok (.string (.mixed t flds))) ∧
    (parseFields fs = none → resolve (Json.obj fs) = .error .noMatch) ∧
    (∀ tc, resolve (Json.obj fs) ≠ .ok (.translation tc)) := by
  have hok : ∀ flds, parseFields fs = some flds →
      resolve (Json.obj fs) = .ok (.string (.mixed t flds)) := by
    intro flds hf
    simp [resolve, Nat.not_le.mpr hdepth, resolveComponent, tryMixed, hcount,
      htext, hf]
  have herr : parseFields fs = none → resolve (Json.obj fs) = .error .noMatch := by
    intro hf
    simp [resolve, Nat.not_le.mpr hdepth, resolveComponent_obj_none hf]
  refine ⟨hok, herr, ?_⟩
  intro tc
  cases hf : parseFields fs with
  | none => simp [herr hf]
  | some flds => simp [hok flds hf]

/-- Claim C1 witness: the two-key object `{"text":"a","translate":"b"}`
resolves to the Mixed node with default attributes. -/
theorem c1_amended_witness :
    resolve (Json.obj [("text", Json.str "a"), ("translate", Json.str "b")]) =
      .ok (.string (.mixed "a" ComponentFields.default)) :=
  (c1_amended [("text", Json.str "a"), ("translate", Json.str "b")] "a"
    (by simp [jsonDepth, jsonFieldsDepth, recursionLimit])
    (by simp [countKey]) (by simp [lookupField]) (by simp [lookupField])).1
    ComponentFields.default
    (by simp [parseFields, countKey, lookupField, parseOptBool, parseOptString,
      parseOptClickEvent, ComponentFields.default])

/-- Claim C2, counterexample: an object with a string `translate` key and no
`with` key fails resolution (the `with` field has no serde default), instead
of producing a Translation node with empty arguments. -/
theorem c2_counterexample :
    resolve (Json.obj [("translate", Json.str "hi")]) = .error .noMatch := by
  simp [resolve, resolveComponent, jsonDepth, jsonFieldsDepth, recursionLimit,
    countKey, tryMixed, tryTranslation, tryKeybind, tryScore, trySelector,
    parseFields, lookupField, parseOptBool, parseOptString, parseOptClickEvent]

/-- Claim C2 (amended): an object within the depth bound carrying a string
`translate` key but no `with` key (and none of the other shape keys) fails
resolution with the mismatch error; `with` does not default to an empty
sequence. -/
theorem c2_amended (fs : List (String × Json)) (key : String)
    (hdepth : jsonDepth (Json.obj fs) < recursionLimit)
    (htr : lookupField fs "translate" = some (Json.str key))
    (hwith : lookupField fs "with" = none)
    (htext : lookupField fs "text" = none)
    (hkb : lookupField fs "keybind" = none)
    (hsc : lookupField fs "score" = none)
    (hsel : lookupField fs "selector" = none) :
    resolve (Json.obj fs) = .error .noMatch := by
  have h1 := tryMixed_none_of_absent htext
  have h2 := tryTranslation_none_of_no_arr
    (fun xs hx => by rw [hwith] at hx; cases hx)
  have h3 := tryKeybind_none_of_absent hkb
  have h4 := tryScore_none_of_absent hsc
  have h5 := trySelector_none_of_absent hsel
  simp [resolve, Nat.not_le.mpr hdepth, resolveComponent, h1, h2, h3, h4, h5]

/-- Claim C2 witness: the amended claim applied to `{"translate":"hi"}`. -/
theorem c2_amended_witness :
    resolve (Json.obj [("translate", Json.str "hi")]) = .error .noMatch :=
  c2_amended [("translate", Json.str "hi")] "hi"
    (by simp [jsonDepth, jsonFieldsDepth, recursionLimit])
    (by simp [lookupField]) (by simp [lookupField]) (by simp [lookupField])
    (by simp [lookupField]) (by simp [lookupField]) (by simp [lookupField])

/-- Claim C3, counterexample: a document with a non-array `with` value and the
empty object both fail with the very same error value (the single collapsed
untagged mismatch), so the two failures are not distinguishable as distinct
`TypeMismatch` / `SchemaMismatch` kinds. -/
theorem c3_counterexample :
    resolve (Json.obj [("translate", Json.str "t"), ("with", Json.num 5)]) =
        .error .noMatch ∧
      resolve (Json.obj []) = .error .noMatch := by
  constructor <;>
    simp [resolve, resolveComponent, jsonDepth, jsonFieldsDepth,
      recursionLimit, countKey, tryMixed, tryTranslation, tryKeybind,
      tryScore, trySelector, parseFields, lookupField, parseOptBool,
      parseOptString, parseOptClickEvent]

/-- Claim C3 (amended): a document within the depth bound whose `with` key
holds a non-array value (and which matches no other shape) fails, and the
empty object fails, but both produce the same single mismatch error — the
implementation does not expose distinct `TypeMismatch` and `SchemaMismatch`
kinds. -/
theorem c3_amended (fs : List (String × Json)) (w : Json)
    (hdepth : jsonDepth (Json.obj fs) < recursionLimit)
    (hwith : lookupField fs "with" = some w)
    (hnarr : ∀ xs, w ≠ Json.arr xs)
    (htext : lookupField fs "text" = none)
    (hkb : lookupField fs "keybind" = none)
    (hsc : lookupField fs "score" = none)
    (hsel : lookupField fs "selector" = none) :
    resolve (Json.obj fs) = .error .noMatch ∧
    resolve (Json.obj []) = .error .noMatch ∧
    resolve (Json.obj fs) = resolve (Json.obj []) := by
  have htrn : tryTranslation fs = none := tryTranslation_none_of_no_arr
    (fun xs hx => by rw [hwith] at hx; exact hnarr xs (Option.some.inj hx))
  have h1 : resolve (Json.obj fs) = .error .noMatch := by
    have hm := tryMixed_none_of_absent htext
    have h3 := tryKeybind_none_of_absent hkb
    have h4 := tryScore_none_of_absent hsc
    have h5 := trySelector_none_of_absent hsel
    simp [resolve, Nat.not_le.mpr hdepth, resolveComponent, hm, htrn, h3,
      h4, h5]
  have h2 : resolve (Json.obj []) = .error .noMatch := by
    simp [resolve, resolveComponent, jsonDepth, jsonFieldsDepth,
      recursionLimit, countKey, tryMixed, tryTranslation, tryKeybind,
      tryScore, trySelector, lookupField]
  exact ⟨h1, h2, h1.trans h2.symm⟩

/-- Claim C3 witness: the amended claim applied to
`{"translate":"t","with":5}` and `{}`. -/
theorem c3_amended_witness :
    resolve (Json.obj [("translate", Json.str "t"), ("with", Json.num 5)]) =
      resolve (Json.obj []) :=
  (c3_amended [("translate", Json.str "t"), ("with", Json.num 5)] (Json.num 5)
    (by simp [jsonDepth, jsonFieldsDepth, recursionLimit])
    (by simp [lookupField]) (by intro xs h; cases h) (by simp [lookupField])
    (by simp [lookupField]) (by simp [lookupField])
    (by simp [lookupField])).2.2

/-- Claim C4: resolution is total — it returns some result on every input —
and any document whose container nesting reaches the documented recursion
limit (serde_json's 128) fails with the distinct depth error instead of
recursing unboundedly. -/
theorem c4_depth_bound :
    (∀ j : Json, ∃ r, resolve j = r) ∧
    (∀ j : Json, recursionLimit ≤ jsonDepth j →
      resolve j = .error .depthExceeded) := by
  refine ⟨fun j => ⟨resolve j, rfl⟩, fun j hj => ?_⟩
  simp [resolve, hj]

set_option maxRecDepth 4000 in
/-- Claim C4 witness: 64 nested `extra` levels give depth 128, which is
rejected as `depthExceeded`. -/
theorem c4_depth_bound_witness :
    recursionLimit ≤ jsonDepth (deepNest 64) ∧
      resolve (deepNest 64) = .error .depthExceeded := by
  have hd : recursionLimit ≤ jsonDepth (deepNest 64) := by
    simp [deepNest, jsonDepth, jsonListDepth, jsonFieldsDepth, recursionLimit]
  exact ⟨hd, c4_depth_bound.2 (deepNest 64) hd⟩

/-- Claim C7: a bare JSON string resolves to `StringNode::Raw` with identical
contents, and that node renders back to exactly the same string. -/
theorem c7_raw_roundtrip (s : String) :
    resolve (Json.str s) = .ok (.string (.raw s)) ∧
    renderComponent (.string (.raw s)) = s := by
  constructor
  · simp [resolve, resolveComponent, jsonDepth, recursionLimit]
  · simp [renderComponent, renderStringComponent]

/-- Claim C9: `{"text":"string"}` resolves to the Mixed string node whose ten
attribute fields (five style flags, color, insertion, click event, hover
event, extra) are all absent. -/
theorem c9_text_mixed_default :
    resolve (Json.obj [("text", Json.str "string")]) =
      .ok (.string (.mixed "string"
        (.mk none none none none none none none none none none))) := by
  simp [resolve, resolveComponent, jsonDepth, jsonFieldsDepth, recursionLimit,
    countKey, tryMixed, parseFields, lookupField, parseOptBool, parseOptString,
    parseOptClickEvent]

/-! ### Rendering lemmas -/

theorem join_nil_eq : String.join ([] : List String) = "" := rfl

theorem join_cons_eq (s : String) (l : List String) :
    String.join (s :: l) = s ++ String.join l := by
  apply String.ext
  simp [String.join_eq, String.data_append]

theorem renderWithArgs_join (ws : List Component) :
    renderWithArgs ws =
      String.join (ws.map (fun c => " " ++ renderComponent c)) := by
  induction ws with
  | nil => simp [renderWithArgs, join_nil_eq]
  | cons c rest ih => simp [renderWithArgs, ih, join_cons_eq]

theorem renderExtras_join (es : List Component) :
    renderExtras es = String.join (es.map renderComponent) := by
  induction es with
  | nil => simp [renderExtras, join_nil_eq]
  | cons c rest ih => simp [renderExtras, ih, join_cons_eq]

theorem renderExtrasOpt_join (o : Option (List Component)) :
    renderExtrasOpt o = String.join ((o.getD []).map renderComponent) := by
  cases o with
  | none => simp [renderExtrasOpt, join_nil_eq]
  | some es => simp [renderExtrasOpt, renderExtras_join]

theorem hoverValue_step :
    resolveStringComponent (Json.obj [("text", Json.str "Hover")]) =
      some (.mixed "Hover" ComponentFields.default) := by
  simp [resolveStringComponent, tryMixed, countKey, parseFields, lookupField,
    parseOptBool, parseOptString, parseOptClickEvent, ComponentFields.default]

theorem hoverEvent_step :
    parseHoverEventVal (Json.obj [("action", Json.str "show_entity"),
      ("value", Json.obj [("text", Json.str "Hover")])]) =
      some (some (.showEntity (.mixed "Hover" ComponentFields.default))) := by
  simp [parseHoverEventVal, countKey, lookupField, hoverValue_step]

theorem clickEvent_step :
    parseClickEvent (Json.obj [("action", Json.str "suggest_command"),
      ("value", Json.str "/tell Username ")]) =
      some (.suggestCommand "/tell Username ") := by
  simp [parseClickEvent, countKey, lookupField]

theorem usernameFields_step :
    parseFields [
      ("insertion", Json.str "Username"),
      ("clickEvent", Json.obj [("action", Json.str "suggest_command"),
        ("value", Json.str "/tell Username ")]),
      ("hoverEvent", Json.obj [("action", Json.str "show_entity"),
        ("value", Json.obj [("text", Json.str "Hover")])]),
      ("text", Json.str "Username")] = some usernameFields := by
  simp [parseFields, countKey, lookupField, parseOptBool, parseOptString,
    parseOptClickEvent, clickEvent_step, hoverEvent_step, usernameFields]

theorem usernameDoc_step :
    resolveComponent usernameDoc = some (.string (.mixed "Username"
      usernameFields)) := by
  simp [usernameDoc, resolveComponent, tryMixed, countKey, lookupField,
    usernameFields_step]

theorem playerJoinFields_step :
    parseFields [
      ("color", Json.str "yellow"),
      ("translate", Json.str "multiplayer.player.joined"),
      ("with", Json.arr [usernameDoc])] =
      some (.mk none none none none none (some "yellow") none none
        none none) := by
  simp [parseFields, countKey, lookupField, parseOptBool, parseOptString,
    parseOptClickEvent]

theorem playerJoinMixed_step :
    tryMixed [
      ("color", Json.str "yellow"),
      ("translate", Json.str "multiplayer.player.joined"),
      ("with", Json.arr [usernameDoc])] = none := by
  simp [tryMixed, countKey, lookupField]

theorem usernameList_step :
    resolveComponentList [usernameDoc] =
      some [.string (.mixed "Username" usernameFields)] := by
  simp [resolveComponentList, usernameDoc_step]

theorem playerJoinTranslation_step :
    tryTranslation [
      ("color", Json.str "yellow"),
      ("translate", Json.str "multiplayer.player.joined"),
      ("with", Json.arr [usernameDoc])] =
      some (.mk "multiplayer.player.joined"
        [.string (.mixed "Username" usernameFields)]
        (.mk none none none none none (some "yellow") none none none none)) :=
  tryTranslation_some (by simp [countKey]) (by simp [countKey])
    (by simp [lookupField]) (by simp [lookupField])
    usernameList_step playerJoinFields_step

theorem playerJoin_resolveComponent_step :
    resolveComponent playerJoinDoc = some playerJoinTree := by
  simp [playerJoinDoc, resolveComponent, playerJoinMixed_step,
    playerJoinTranslation_step, playerJoinTree]

theorem playerJoinDepth_step : jsonDepth playerJoinDoc < recursionLimit := by
  simp [playerJoinDoc, usernameDoc, jsonDepth, jsonListDepth, jsonFieldsDepth,
    recursionLimit]

/-- Claim C5: a Translation node renders as the bracketed key, a single space
followed by each rendered `with` argument in order, then the concatenated
rendered `extra` children; the §6 example resolves to the expected tree and
renders to the expected text. -/
theorem c5_translation_render :
    (∀ (key : String) (ws : List Component) (flds : ComponentFields),
      renderComponent (.translation (.mk key ws flds)) =
        "[" ++ key ++ "]" ++
          String.join (ws.map (fun c => " " ++ renderComponent c)) ++
          String.join (((ComponentFields.extra flds).getD []).map
            renderComponent)) ∧
    resolve playerJoinDoc = .ok playerJoinTree ∧
    renderComponent playerJoinTree = "[multiplayer.player.joined] Username" := by
  refine ⟨?_, ?_, ?_⟩
  · intro key ws flds
    obtain ⟨b, i, u, s, o, c, ins, ce, he, ex⟩ := flds
    simp [renderComponent, renderTranslationComponent, ComponentFields.extra,
      renderWithArgs_join, renderExtrasOpt_join]
  · rw [resolve_below_limit playerJoinDepth_step, playerJoin_resolveComponent_step]
  · simp [playerJoinTree, usernameFields, renderComponent,
      renderTranslationComponent, renderStringComponent, renderWithArgs,
      renderExtras, renderExtrasOpt, ComponentFields.default]

/-! ### Attribute independence of rendering -/

mutual
theorem attrEquivC_render (c c2 : Component) (h : AttrEquivC c c2) :
    renderComponent c = renderComponent c2 := by
  cases h with
  | string hs =>
    simp only [renderComponent]
    exact attrEquivS_render _ _ hs
  | translation hws hf =>
    cases hf with
    | mk hex =>
      simp only [renderComponent, renderTranslationComponent]
      rw [attrEquivL_renderW _ _ hws, attrEquivOL_render _ _ hex]
  | keybind => rfl
  | score => rfl
  | selector => rfl
termination_by sizeOf c
decreasing_by
  all_goals simp_wf
  all_goals omega

theorem attrEquivS_render (s s2 : StringComponent) (h : AttrEquivS s s2) :
    renderStringComponent s = renderStringComponent s2 := by
  cases h with
  | raw => rfl
  | mixed hf =>
    cases hf with
    | mk hex =>
      simp only [renderStringComponent]
      rw [attrEquivOL_render _ _ hex]
termination_by sizeOf s
decreasing_by
  all_goals simp_wf
  all_goals omega

theorem attrEquivOL_render (o o2 : Option (List Component))
    (h : AttrEquivOL o o2) : renderExtrasOpt o = renderExtrasOpt o2 := by
  cases h with
  | none => rfl
  | some hl =>
    simp only [renderExtrasOpt]
    exact attrEquivL_renderE _ _ hl
termination_by sizeOf o
decreasing_by
  all_goals simp_wf

theorem attrEquivL_renderW (l l2 : List Component) (h : AttrEquivL l l2) :
    renderWithArgs l = renderWithArgs l2 := by
  cases h with
  | nil => rfl
  | cons hc hl =>
    simp only [renderWithArgs]
    rw [attrEquivC_render _ _ hc, attrEquivL_renderW _ _ hl]
termination_by sizeOf l
decreasing_by
  all_goals simp_wf
  all_goals omega

theorem attrEquivL_renderE (l l2 : List Component) (h : AttrEquivL l l2) :
    renderExtras l = renderExtras l2 := by
  cases h with
  | nil => rfl
  | cons hc hl =>
    simp only [renderExtras]
    rw [attrEquivC_render _ _ hc, attrEquivL_renderE _ _ hl]
termination_by sizeOf l
decreasing_by
  all_goals simp_wf
  all_goals omega
end

/-- Claim C6: rendering is a deterministic pure function of the tree, and the
rendered text of String and Translation nodes does not depend on the bold,
italic, underlined, strikethrough, obfuscated, color, insertion, clickEvent
and hoverEvent attribute fields: trees differing only in those fields render
identically. -/
theorem c6_render_attr_independent :
    (∀ c : Component, renderComponent c = renderComponent c) ∧
    (∀ c c2 : Component, AttrEquivC c c2 →
      renderComponent c = renderComponent c2) :=
  ⟨fun _ => rfl, fun c c2 h => attrEquivC_render c c2 h⟩

/-- Claim C6 witness: flipping bold and color on a Mixed node leaves the
rendering unchanged. -/
theorem c6_render_attr_independent_witness :
    renderComponent (.string (.mixed "x"
      (.mk (some true) none none none none (some "red") none none none
        none))) =
    renderComponent (.string (.mixed "x"
      (.mk none none none none none none none none none none))) :=
  c6_render_attr_independent.2 _ _
    (AttrEquivC.string (AttrEquivS.mixed (AttrEquivF.mk AttrEquivOL.none)))

/-! ### Ordering of extra children -/

theorem list_append_swap_iff {α : Type} (p x y s : List α) :
    p ++ (x ++ (y ++ s)) = p ++ (y ++ (x ++ s)) ↔ x ++ y = y ++ x := by
  constructor
  · intro h
    have h1 := List.append_cancel_left h
    have h2 : (x ++ y) ++ s = (y ++ x) ++ s := by
      simpa [List.append_assoc] using h1
    exact List.append_cancel_right h2
  · intro h
    calc p ++ (x ++ (y ++ s)) = p ++ ((x ++ y) ++ s) := by
          simp [List.append_assoc]
      _ = p ++ ((y ++ x) ++ s) := by rw [h]
      _ = p ++ (y ++ (x ++ s)) := by simp [List.append_assoc]

theorem string_append_swap_iff (p x y s : String) :
    p ++ (x ++ (y ++ s)) = p ++ (y ++ (x ++ s)) ↔ x ++ y = y ++ x := by
  constructor
  · intro h
    have hd := congrArg String.data h
    simp only [String.data_append] at hd
    have := (list_append_swap_iff p.data x.data y.data s.data).mp hd
    apply String.ext
    simpa [String.data_append] using this
  · intro h
    have hd := congrArg String.data h
    simp only [String.data_append] at hd
    have := (list_append_swap_iff p.data x.data y.data s.data).mpr hd
    apply String.ext
    simpa [String.data_append] using this

/-- Claim C8, counterexample: the children `"x"` and `"xx"` have different
rendered forms, yet swapping them in an `extra` sequence leaves the overall
rendering unchanged (both orders give `"txxx"`). -/
theorem c8_counterexample :
    renderComponent (.string (.raw "x")) ≠ renderComponent (.string (.raw "xx")) ∧
    renderComponent (.string (.mixed "t" (extrasOnly
      [.string (.raw "x"), .string (.raw "xx")]))) =
    renderComponent (.string (.mixed "t" (extrasOnly
      [.string (.raw "xx"), .string (.raw "x")]))) := by
  constructor
  · simp [renderComponent, renderStringComponent]
  · simp [renderComponent, renderStringComponent, extrasOnly,
      renderExtrasOpt, renderExtras]

/-- Claim C8 (amended): `extra` children render strictly after the node's own
text, in stored order, both on Mixed string nodes and on Translation nodes;
and swapping two adjacent children changes the rendered output exactly when
their rendered forms do not commute under concatenation (inequality of the
rendered forms alone is not enough). -/
theorem c8_amended :
    (∀ (t : String) (flds : ComponentFields) (es : List Component),
      ComponentFields.extra flds = some es →
      renderComponent (.string (.mixed t flds)) =
        t ++ String.join (es.map renderComponent)) ∧
    (∀ (key : String) (ws : List Component) (flds : ComponentFields)
        (es : List Component),
      ComponentFields.extra flds = some es →
      renderComponent (.translation (.mk key ws flds)) =
        ("[" ++ key ++ "]" ++ renderWithArgs ws) ++
          String.join (es.map renderComponent)) ∧
    (∀ (t : String) (a b : Component) (rest : List Component),
      renderComponent (.string (.mixed t (extrasOnly (a :: b :: rest)))) =
          renderComponent (.string (.mixed t (extrasOnly (b :: a :: rest)))) ↔
        renderComponent a ++ renderComponent b =
          renderComponent b ++ renderComponent a) := by
  refine ⟨?_, ?_, ?_⟩
  · intro t flds es hex
    obtain ⟨b, i, u, s, o, c, ins, ce, he, ex⟩ := flds
    simp only [ComponentFields.extra] at hex
    subst hex
    simp [renderComponent, renderStringComponent, renderExtrasOpt,
      renderExtras_join]
  · intro key ws flds es hex
    obtain ⟨b, i, u, s, o, c, ins, ce, he, ex⟩ := flds
    simp only [ComponentFields.extra] at hex
    subst hex
    simp [renderComponent, renderTranslationComponent, renderExtrasOpt,
      renderExtras_join, String.append_assoc]
  · intro t a b rest
    simp only [renderComponent, renderStringComponent, extrasOnly,
      renderExtrasOpt, renderExtras]
    exact string_append_swap_iff t (renderComponent a) (renderComponent b)
      (renderExtras rest)

/-- Claim C8 witness: the stored-order equation applied to a node with one
`extra` child. -/
theorem c8_amended_witness :
    renderComponent (.string (.mixed "t" (extrasOnly [.string (.raw "x")]))) =
      "t" ++ String.join ([Component.string (.raw "x")].map renderComponent) :=
  c8_amended.1 "t" (extrasOnly [.string (.raw "x")]) [.string (.raw "x")]
    (by simp [extrasOnly, ComponentFields.extra])

/-! ### ServerAddress lemmas -/

theorem splitLastColon_none_iff (cs : List Char) :
    splitLastColon cs = none ↔ ':' ∉ cs := by
  induction cs with
  | nil => simp [splitLastColon]
  | cons c rest ih =>
    simp only [splitLastColon]
    cases hs : splitLastColon rest with
    | some p =>
      rw [hs] at ih
      simp at ih
      simp [ih]
    | none =>
      rw [hs] at ih
      simp at ih
      by_cases hc : c = ':' <;> simp [hc, ih]
      exact fun h2 => hc h2.symm

theorem splitLastColon_append (before after : List Char) (h : ':' ∉ after) :
    splitLastColon (before ++ ':' :: after) = some (before, after) := by
  induction before with
  | nil => simp [splitLastColon, (splitLastColon_none_iff after).mpr h]
  | cons c rest ih => simp [splitLastColon, ih]

theorem digitsVal_le (cs : List Char) : ∀ a : Nat, a ≤ digitsVal a cs := by
  induction cs with
  | nil => intro a; simp [digitsVal]
  | cons c rest ih =>
    intro a
    have := ih (a * 10 + (c.toNat - 48))
    simp only [digitsVal, List.foldl_cons] at this ⊢
    omega

theorem parseU16Digits_ok (cs : List Char) : ∀ a : Nat,
    (∀ c ∈ cs, 48 ≤ c.toNat ∧ c.toNat ≤ 57) → digitsVal a cs ≤ 65535 →
    parseU16Digits a cs = .ok (digitsVal a cs) := by
  induction cs with
  | nil => intro a _ _; simp [parseU16Digits, digitsVal]
  | cons c rest ih =>
    intro a hdig hle
    have hc := hdig c (by simp)
    have hmid : a * 10 + (c.toNat - 48) ≤ digitsVal a (c :: rest) := by
      have := digitsVal_le rest (a * 10 + (c.toNat - 48))
      simp only [digitsVal, List.foldl_cons] at this ⊢
      omega
    have hstep : digitsVal a (c :: rest) =
        digitsVal (a * 10 + (c.toNat - 48)) rest := by
      simp [digitsVal]
    rw [parseU16Digits, if_pos hc, if_neg (by omega), hstep]
    exact ih _ (fun d hd => hdig d (by simp [hd])) (by omega)

theorem digitChar_toNat {m : Nat} (h : m < 10) :
    (Char.ofNat (48 + m)).toNat = 48 + m := by
  interval_cases m <;> rfl

theorem natDecDigits_shift (n : Nat) : ∀ acc : List Char,
    natDecDigits n acc = natDecDigits n [] ++ acc := by
  induction n using Nat.strong_induction_on with
  | _ n ih =>
    intro acc
    by_cases h : n = 0
    · simp [natDecDigits, h]
    · have hd : n / 10 < n := Nat.div_lt_self (by omega) (by omega)
      conv_lhs => rw [natDecDigits, dif_neg h]
      conv_rhs => rw [natDecDigits, dif_neg h]
      rw [ih (n / 10) hd (Char.ofNat (48 + n % 10) :: acc),
        ih (n / 10) hd [Char.ofNat (48 + n % 10)]]
      simp

theorem natDecDigits_digits (n : Nat) :
    ∀ c ∈ natDecDigits n [], 48 ≤ c.toNat ∧ c.toNat ≤ 57 := by
  induction n using Nat.strong_induction_on with
  | _ n ih =>
    intro c hc
    by_cases h : n = 0
    · simp [natDecDigits, h] at hc
    · rw [natDecDigits, dif_neg h,
        natDecDigits_shift (n / 10) [Char.ofNat (48 + n % 10)]] at hc
      rcases List.mem_append.mp hc with hm | hm
      · exact ih (n / 10) (Nat.div_lt_self (by omega) (by omega)) c hm
      · have hmod : n % 10 < 10 := Nat.mod_lt _ (by omega)
        have := digitChar_toNat hmod
        simp at hm
        subst hm
        omega

theorem natDecDigits_val (n : Nat) : digitsVal 0 (natDecDigits n []) = n := by
  induction n using Nat.strong_induction_on with
  | _ n ih =>
    by_cases h : n = 0
    · simp [natDecDigits, h, digitsVal]
    · rw [natDecDigits, dif_neg h,
        natDecDigits_shift (n / 10) [Char.ofNat (48 + n % 10)]]
      have hmod : n % 10 < 10 := Nat.mod_lt _ (by omega)
      have hih := ih (n / 10) (Nat.div_lt_self (by omega) (by omega))
      simp only [digitsVal, List.foldl_append, List.foldl_cons,
        List.foldl_nil] at hih ⊢
      rw [hih, digitChar_toNat hmod]
      omega

theorem natDecDigits_ne_nil {n : Nat} (h : n ≠ 0) : natDecDigits n [] ≠ [] := by
  rw [natDecDigits, dif_neg h, natDecDigits_shift]
  simp

theorem parseU16_natToDecimal {p : Nat} (hp : p ≤ 65535) :
    parseU16 (natToDecimal p) = .ok p := by
  by_cases h0 : p = 0
  · subst h0
    rfl
  · have hne := natDecDigits_ne_nil h0
    obtain ⟨c, rest, hcr⟩ := List.exists_cons_of_ne_nil hne
    have hdig := natDecDigits_digits p
    have hc : 48 ≤ c.toNat ∧ c.toNat ≤ 57 := hdig c (by rw [hcr]; simp)
    have hcplus : ¬ c = '+' := by
      intro he
      subst he
      have h43 : ('+' : Char).toNat = 43 := rfl
      omega
    have key : parseU16Digits 0 (natDecDigits p []) = .ok p := by
      rw [parseU16Digits_ok (natDecDigits p []) 0 hdig
        (by rw [natDecDigits_val]; exact hp), natDecDigits_val]
    rw [natToDecimal, if_neg h0]
    calc parseU16 (String.mk (natDecDigits p []))
        = parseU16 (String.mk (c :: rest)) := by rw [hcr]
      _ = parseU16Digits 0 (c :: rest) := by simp [parseU16, hcplus]
      _ = .ok p := by rw [← hcr]; exact key

theorem colon_not_mem_natToDecimal (p : Nat) : ':' ∉ (natToDecimal p).data := by
  by_cases h0 : p = 0
  · subst h0
    decide
  · rw [natToDecimal, if_neg h0]
    intro hc
    have h2 := natDecDigits_digits p ':' hc
    have h58 : (':' : Char).toNat = 58 := rfl
    omega

/-- Claim C10: `ServerAddress::from_str` splits at the last colon, parsing the
suffix as a `u16` port (propagating the `ParseIntError` on failure); an input
with no colon becomes the whole-input host with default port 25565; `Display`
prints `host:port`, so parsing `host:port` with a valid port and re-displaying
returns the original string. -/
theorem c10_server_address :
    (∀ s : String, ':' ∉ s.data → ServerAddress.fromStr s = .ok ⟨s, 25565⟩) ∧
    (∀ host portStr : String, ':' ∉ portStr.data →
      ServerAddress.fromStr (host ++ ":" ++ portStr) =
        (parseU16 portStr).map (fun port => ⟨host, port⟩)) ∧
    (∀ a : ServerAddress, a.display = a.host ++ ":" ++ natToDecimal a.port) ∧
    (∀ (host : String) (p : Nat), p ≤ 65535 →
      (ServerAddress.fromStr (host ++ ":" ++ natToDecimal p)).map
          ServerAddress.display = .ok (host ++ ":" ++ natToDecimal p)) := by
  have hdata : ∀ (host portStr : String),
      (host ++ ":" ++ portStr).data = host.data ++ ':' :: portStr.data := by
    intro host portStr
    simp [String.data_append]
  refine ⟨?_, ?_, ?_, ?_⟩
  · intro s hs
    simp [ServerAddress.fromStr, (splitLastColon_none_iff s.data).mpr hs]
  · intro host portStr hcolon
    have hsplit := splitLastColon_append host.data portStr.data hcolon
    simp [ServerAddress.fromStr, hdata host portStr, hsplit]
  · intro a
    rfl
  · intro host p hp
    have hcolon := colon_not_mem_natToDecimal p
    have hsplit := splitLastColon_append host.data (natToDecimal p).data hcolon
    simp [ServerAddress.fromStr, hdata host (natToDecimal p), hsplit,
      parseU16_natToDecimal hp, ServerAddress.display]
    rfl

/-- Claim C10 witness: the split, the default port, and the round trip at
concrete addresses (`127.0.0.1:25566` and a bare host). -/
theorem c10_server_address_witness :
    ServerAddress.fromStr "127.0.0.1" = .ok ⟨"127.0.0.1", 25565⟩ ∧
    ServerAddress.fromStr ("127.0.0.1" ++ ":" ++ "25566") =
      (parseU16 "25566").map (fun port => ⟨"127.0.0.1", port⟩) ∧
    (ServerAddress.fromStr ("127.0.0.1" ++ ":" ++ natToDecimal 25566)).map
      ServerAddress.display = .ok ("127.0.0.1" ++ ":" ++ natToDecimal 25566) :=
  ⟨c10_server_address.1 "127.0.0.1" (by decide),
   c10_server_address.2.1 "127.0.0.1" "25566" (by decide),
   c10_server_address.2.2.2 "127.0.0.1" 25566 (by decide)⟩

end Cobble
